import Mathlib

/-!
Verification of the ollama-dl-go blob downloader (src/main.go) against its
specification. The Go program is shallowly embedded: pure computations
(digest handling, filename templates, URL construction, the job list) are
Lean functions; the effectful parts (HTTP requests, the file system, the
body stream) are driven by explicit environment records so that each code
path of the source is a branch of a Lean function.
-/

set_option maxHeartbeats 1000000

/-- Decidable equality for `Except`, used to evaluate resolution results on
concrete inputs. -/
instance {ε α : Type} [DecidableEq ε] [DecidableEq α] : DecidableEq (Except ε α) := fun a b =>
  match a, b with
  | .error x, .error y =>
    if h : x = y then .isTrue (by rw [h]) else .isFalse (by simp [h])
  | .error _, .ok _ => .isFalse (by simp)
  | .ok _, .error _ => .isFalse (by simp)
  | .ok x, .ok y =>
    if h : x = y then .isTrue (by rw [h]) else .isFalse (by simp [h])

namespace OllamaDl

/-- src/main.go line 20: `numRetries = 10`. -/
def numRetries : Nat := 10

/-- src/main.go lines 23-29: the map from a layer's media type to the
destination filename template (one `%s` verb for the short hash). -/
def mediaTypeToFileTemplate (mt : String) : Option String :=
  if mt = "application/vnd.ollama.image.license" then some "license-%s.txt"
  else if mt = "application/vnd.ollama.image.model" then some "model-%s.gguf"
  else if mt = "application/vnd.ollama.image.params" then some "params-%s.json"
  else if mt = "application/vnd.ollama.image.system" then some "system-%s.txt"
  else if mt = "application/vnd.ollama.image.template" then some "template-%s.txt"
  else none

/-- src/main.go lines 31-35. -/
structure Layer where
  MediaType : String
  Digest : String
  Size : Int
deriving DecidableEq, Repr

/-- src/main.go lines 37-40. -/
structure Manifest where
  MediaType : String
  Layers : List Layer
deriving DecidableEq, Repr

/-- src/main.go lines 42-47. -/
structure DownloadJob where
  Layer : Layer
  DestPath : String
  BlobURL : String
  Size : Int
deriving DecidableEq, Repr

/-- Character-level substitution of every `%s` verb by `arg`. -/
def sprintf1Aux (arg : List Char) : List Char → List Char
  | [] => []
  | '%' :: 's' :: rest => arg ++ sprintf1Aux arg rest
  | c :: rest => c :: sprintf1Aux arg rest

/-- `fmt.Sprintf` on a format string whose only verbs are `%s`, applied to a
single argument: every `%s` is replaced by the argument. -/
def sprintf1 (tmpl arg : String) : String := ⟨sprintf1Aux arg.data tmpl.data⟩

/-- `filepath.Join(dir, file)` for already-clean components: an empty
directory yields the file name, otherwise the two are joined with a slash. -/
def joinPath (dir file : String) : String :=
  if dir = "" then file else dir ++ "/" ++ file

/-- src/main.go lines 49-54: `getShortHash`. Only the `"sha256:"` prefix is
checked; the hex part is never validated. `layer.Digest[7:19]` is a byte
slice that panics in Go when the digest is shorter than 19 bytes — the
panic is modelled by `none`. Go's byte-level operations coincide with the
character-level ones used here because digest strings are ASCII. -/
def getShortHash (layer : Layer) : Option (Except String String) :=
  if "sha256:".data.isPrefixOf layer.Digest.data then
    if layer.Digest.length < 19 then none
    else some (.ok ⟨(layer.Digest.data.drop 7).take 12⟩)
  else some (.error ("unexpected digest: " ++ layer.Digest))

/-- src/main.go line 113: the manifest URL. -/
def manifestURL (registry name version : String) : String :=
  registry ++ "/v2/" ++ name ++ "/manifests/" ++ version

/-- src/main.go line 147: the blob URL of a layer. -/
def blobURL (registry name : String) (layer : Layer) : String :=
  registry ++ "/v2/" ++ name ++ "/blobs/" ++ layer.Digest

/-- src/main.go lines 133-155: the loop over `manifest.Layers` building the
job list. A layer whose media type is not in the template map is skipped;
a recognized layer goes through `getShortHash`, whose error aborts the whole
resolution (and whose panic, `none`, propagates). -/
def getDownloadJobsAux (registry name destDir : String) :
    List Layer → Option (Except String (List DownloadJob))
  | [] => some (.ok [])
  | layer :: rest =>
    match mediaTypeToFileTemplate layer.MediaType with
    | none => getDownloadJobsAux registry name destDir rest
    | some fileTemplate =>
      match getShortHash layer with
      | none => none
      | some (.error e) => some (.error e)
      | some (.ok shortHash) =>
        match getDownloadJobsAux registry name destDir rest with
        | none => none
        | some (.error e) => some (.error e)
        | some (.ok jobs) =>
          some (.ok (⟨layer,
            joinPath destDir (sprintf1 fileTemplate shortHash),
            blobURL registry name layer,
            layer.Size⟩ :: jobs))

/-- Outcome of the manifest fetch and decode, the external effects of
`getDownloadJobs`: whether `client.Get` fails, the response status, and the
result of decoding the body as JSON into a `Manifest`. -/
structure ManifestEnv where
  getErr : Option String
  StatusCode : Nat
  decode : Except String Manifest

/-- src/main.go lines 112-158: `getDownloadJobs`. -/
def getDownloadJobs (env : ManifestEnv) (registry destDir name version : String) :
    Option (Except String (List DownloadJob)) :=
  match env.getErr with
  | some e => some (.error e)
  | none =>
    if env.StatusCode ≠ 200 then
      some (.error ("failed to get manifest: " ++ toString env.StatusCode))
    else
      match env.decode with
      | .error e => some (.error e)
      | .ok manifest =>
        if manifest.MediaType ≠ "application/vnd.docker.distribution.manifest.v2+json" then
          some (.error ("unexpected media type for manifest: " ++ manifest.MediaType))
        else getDownloadJobsAux registry name destDir manifest.Layers

/-- src/main.go line 60: `tempPath := job.DestPath + ".tmp"`. -/
def tempPath (job : DownloadJob) : String := job.DestPath ++ ".tmp"

/-- The on-disk state one transfer can touch: the content of its staging
file `tempPath job` and of its destination `job.DestPath` (`none` = the
file does not exist). -/
structure FS where
  staging : Option (List Nat)
  dest : Option (List Nat)
deriving DecidableEq, Repr

/-- Length of the staging file (0 when absent). -/
def FS.stagingLen (fs : FS) : Nat := (fs.staging.getD []).length

/-- Behaviour of the body stream during `io.Copy` on one attempt: either it
delivers `bytes` and ends cleanly, or it delivers `bytes` and then fails
with a transport error. -/
inductive CopyResult where
  | ok (bytes : List Nat)
  | errAfter (bytes : List Nat)
deriving DecidableEq, Repr

/-- Environment of one attempt of `downloadBlob`: for each fallible external
call, `some msg` means the call returns that error; plus the HTTP status of
the response and the behaviour of the body stream. -/
structure AttemptEnv where
  mkdirErr : Option String
  openErr : Option String
  reqErr : Option String
  doErr : Option String
  StatusCode : Nat
  copy : CopyResult
  renameErr : Option String
deriving DecidableEq, Repr

/-- One request issued to the blob URL: the URL and the lower bound of the
`Range: bytes=N-` header (`none` = no Range header, full body requested). -/
structure BlobRequest where
  url : String
  rangeFrom : Option Nat
deriving DecidableEq, Repr

/-- How one iteration of the retry loop ends: `fatal` is a `return err`
(the whole job aborts), `retry` is the `continue` after a failed copy,
`done` is the successful rename followed by `return nil`. -/
inductive AttemptRes where
  | fatal (msg : String)
  | retry
  | done
deriving DecidableEq, Repr

/-- Result of one iteration: how it ended, the file-system state after it,
the blob requests it issued, and the progress-bar events it emitted (each
event is the bar's total, `job.Size`, and the `Set64` offset). -/
structure StepOut where
  res : AttemptRes
  fs : FS
  calls : List BlobRequest
  progress : List (Int × Nat)
deriving DecidableEq, Repr

/-- One iteration of the retry loop of `downloadBlob`
(src/main.go lines 59-107): create the directory, open the staging file for
append (creating it if absent), read the resume offset as the file length,
build the request with a `Range` header exactly when the offset is positive,
send it, require status 200 or 206, stream the body appending to the staging
file, and on a clean end of stream rename the staging file onto the
destination. -/
def attemptStep (job : DownloadJob) (env : AttemptEnv) (fs : FS) : StepOut :=
  match env.mkdirErr with
  | some e => ⟨.fatal ("failed to create directory: " ++ e), fs, [], []⟩
  | none =>
  match env.openErr with
  | some e => ⟨.fatal e, fs, [], []⟩
  | none =>
  let content := fs.staging.getD []
  let fs1 : FS := ⟨some content, fs.dest⟩
  let startOffset := content.length
  match env.reqErr with
  | some e => ⟨.fatal e, fs1, [], []⟩
  | none =>
  let req : BlobRequest := ⟨job.BlobURL, if startOffset > 0 then some startOffset else none⟩
  match env.doErr with
  | some e => ⟨.fatal e, fs1, [req], []⟩
  | none =>
  if env.StatusCode ≠ 200 ∧ env.StatusCode ≠ 206 then
    ⟨.fatal ("unexpected status code: " ++ toString env.StatusCode), fs1, [req], []⟩
  else
    match env.copy with
    | .errAfter bytes =>
      ⟨.retry, ⟨some (content ++ bytes), fs.dest⟩, [req], [(job.Size, startOffset)]⟩
    | .ok bytes =>
      match env.renameErr with
      | some e =>
        ⟨.fatal e, ⟨some (content ++ bytes), fs.dest⟩, [req], [(job.Size, startOffset)]⟩
      | none =>
        ⟨.done, ⟨none, some (content ++ bytes)⟩, [req], [(job.Size, startOffset)]⟩

/-- Result of a whole `downloadBlob` call: the returned error (if any), the
final file-system state, and the accumulated requests and progress events. -/
structure DlOut where
  res : Except String Unit
  fs : FS
  calls : List BlobRequest
  progress : List (Int × Nat)
deriving DecidableEq, Repr

/-- The retry loop of `downloadBlob`, starting at attempt number `attempt`
with `fuel` iterations left (`fuel = numRetries - attempt + 1`), carrying the
requests and progress events accumulated so far. Exhausted fuel is the loop
falling through to `return errors.New("maximum retries reached")`. -/
def downloadBlobAux (job : DownloadJob) (env : Nat → AttemptEnv) :
    Nat → Nat → FS → List BlobRequest → List (Int × Nat) → DlOut
  | 0, _, fs, calls, prog => ⟨.error "maximum retries reached", fs, calls, prog⟩
  | fuel + 1, attempt, fs, calls, prog =>
    let s := attemptStep job (env attempt) fs
    match s.res with
    | .fatal e => ⟨.error e, s.fs, calls ++ s.calls, prog ++ s.progress⟩
    | .done => ⟨.ok (), s.fs, calls ++ s.calls, prog ++ s.progress⟩
    | .retry => downloadBlobAux job env fuel (attempt + 1) s.fs (calls ++ s.calls) (prog ++ s.progress)

/-- src/main.go lines 56-110: `downloadBlob`, with the external world of
attempt `a` (1 ≤ a ≤ `numRetries`) given by `env a`. -/
def downloadBlob (job : DownloadJob) (env : Nat → AttemptEnv) (fs : FS) : DlOut :=
  downloadBlobAux job env numRetries 1 fs [] []

/-- Everything a transfer produces except the progress-bar events. -/
def DlOut.core (o : DlOut) : Except String Unit × FS × List BlobRequest :=
  (o.res, o.fs, o.calls)

/-- The same job with a different expected size. -/
def DownloadJob.withSize (job : DownloadJob) (s : Int) : DownloadJob :=
  ⟨job.Layer, job.DestPath, job.BlobURL, s⟩

/-- Per-job outcome as observed by the dispatch loop of `main`: either the
job was skipped by the `os.Stat` pre-check or it ran its own `downloadBlob`. -/
inductive JobReport where
  | skipped
  | ran (out : DlOut)
deriving DecidableEq, Repr

/-- The blob requests a job's handling issued (a skipped job issues none). -/
def reportCalls : JobReport → List BlobRequest
  | .skipped => []
  | .ran out => out.calls

/-- The dispatch loop of `main` (src/main.go lines 196-211): the `i`-th job
of the list is checked against its destination (`os.Stat`); if the
destination exists it is skipped, otherwise it is handed to its own
`downloadBlob` goroutine running on its own file-system slice `fss i` with
its own attempt environments `envs i`. The `WaitGroup` join is modelled by
the report listing every job's outcome; jobs share no state, so the
interleaving of the goroutines is not observable. -/
def orchestrateAux (fss : Nat → FS) (envs : Nat → Nat → AttemptEnv) :
    Nat → List DownloadJob → List JobReport
  | _, [] => []
  | i, job :: rest =>
    (if (fss i).dest.isSome then .skipped
     else .ran (downloadBlob job (envs i) (fss i))) :: orchestrateAux fss envs (i + 1) rest

/-- The whole dispatch loop, jobs numbered from 0. -/
def orchestrate (jobs : List DownloadJob) (fss : Nat → FS)
    (envs : Nat → Nat → AttemptEnv) : List JobReport :=
  orchestrateAux fss envs 0 jobs

/-- What `main` does once the HTTP client is built (src/main.go
lines 189-211): a resolution failure prints the error and exits before any
job is dispatched; a `getShortHash` slice panic crashes the process;
otherwise every job goes through the dispatch loop. -/
inductive RunPhase where
  | abort (msg : String)
  | crash
  | dispatch (reports : List JobReport)

/-- The run of `main` after argument handling. -/
def mainRun (env : ManifestEnv) (registry destDir name version : String)
    (fss : Nat → FS) (envs : Nat → Nat → AttemptEnv) : RunPhase :=
  match getDownloadJobs env registry destDir name version with
  | none => .crash
  | some (.error e) => .abort e
  | some (.ok jobs) => .dispatch (orchestrate jobs fss envs)

/-! ### Concrete fixtures -/

/-- A digest whose hex part is 64 `a` characters, as in the specification's
scenario. -/
def digestA : String :=
  "sha256:aaaaaaaaaaaaaaaaaaaaaaaaaaaaaaaaaaaaaaaaaaaaaaaaaaaaaaaaaaaaaaaa"

/-- A params layer with digest `digestA` and size 96. -/
def layerParamsA : Layer := ⟨"application/vnd.ollama.image.params", digestA, 96⟩

/-- A recognized layer whose digest is long enough not to panic but whose
"hex" part is not hexadecimal at all. -/
def layerBadHex : Layer :=
  ⟨"application/vnd.ollama.image.params", "sha256:ZZZZZZZZZZZZZZZZ", 96⟩

/-- A layer of a media type outside the template map, with a digest that is
not even prefixed correctly. -/
def layerUnknown : Layer := ⟨"application/octet-stream", "not-a-digest", 5⟩

/-! ### C10 -/

/-- Claim C10: a manifest layer whose media type is not one of the five
recognized kinds is silently omitted by the job-list loop: the list built
from `layer :: rest` is exactly the one built from `rest`, with no job and
no error contributed by `layer` (its digest is not even inspected). -/
theorem c10_unrecognized_layer_silently_omitted
    (registry name destDir : String) (layer : Layer)
    (h : mediaTypeToFileTemplate layer.MediaType = none) (rest : List Layer) :
    getDownloadJobsAux registry name destDir (layer :: rest) =
      getDownloadJobsAux registry name destDir rest := by
  simp [getDownloadJobsAux, h]

/-- Claim C10 witness: a layer with media type `application/octet-stream`
(and a malformed digest) contributes nothing: the job list is `[]` and no
error is reported. -/
theorem c10_witness :
    getDownloadJobsAux "https://r" "library/m" "d" [layerUnknown] =
      some (.ok []) := by
  exact (c10_unrecognized_layer_silently_omitted "https://r" "library/m" "d"
    layerUnknown (by decide) []).trans (by decide)

/-! ### C9 -/

/-- Claim C9: a layer with a recognized kind and a digest of the shape
`sha256:<hex>` (long enough for the byte slice) yields a job whose
destination filename is the kind's template filled with characters 7..19 of
the digest string (the first 12 hex characters), joined under the
destination directory, and whose staging path is the destination path plus
the suffix `".tmp"`. -/
theorem c9_filename_template_and_staging_path
    (registry name destDir : String) (layer : Layer) (tmpl : String)
    (h1 : mediaTypeToFileTemplate layer.MediaType = some tmpl)
    (h2 : "sha256:".data.isPrefixOf layer.Digest.data = true)
    (h3 : 19 ≤ layer.Digest.length) :
    getDownloadJobsAux registry name destDir [layer] =
      some (.ok [⟨layer,
        joinPath destDir (sprintf1 tmpl ⟨(layer.Digest.data.drop 7).take 12⟩),
        blobURL registry name layer, layer.Size⟩]) ∧
    tempPath ⟨layer,
        joinPath destDir (sprintf1 tmpl ⟨(layer.Digest.data.drop 7).take 12⟩),
        blobURL registry name layer, layer.Size⟩ =
      joinPath destDir (sprintf1 tmpl ⟨(layer.Digest.data.drop 7).take 12⟩) ++ ".tmp" := by
  constructor
  · simp [getDownloadJobsAux, getShortHash, h1, h2, Nat.not_lt.mpr h3]
  · rfl

/-- Claim C9 witness: the params layer with digest `sha256:aaaa…` resolves to
destination `library-m-latest/params-aaaaaaaaaaaa.json`, staged as
`library-m-latest/params-aaaaaaaaaaaa.json.tmp`. -/
theorem c9_witness :
    getDownloadJobsAux "https://registry.ollama.ai" "library/m" "library-m-latest"
        [layerParamsA] =
      some (.ok [⟨layerParamsA, "library-m-latest/params-aaaaaaaaaaaa.json",
        "https://registry.ollama.ai/v2/library/m/blobs/" ++ digestA, 96⟩]) ∧
    tempPath ⟨layerParamsA, "library-m-latest/params-aaaaaaaaaaaa.json",
        "https://registry.ollama.ai/v2/library/m/blobs/" ++ digestA, 96⟩ =
      "library-m-latest/params-aaaaaaaaaaaa.json.tmp" := by
  have h := c9_filename_template_and_staging_path "https://registry.ollama.ai"
    "library/m" "library-m-latest" layerParamsA "params-%s.json" (by decide) (by decide)
    (by decide)
  exact ⟨h.1.trans (by decide), by decide⟩

/-! ### C7 -/

/-- A resolution pass over a layer list in which some recognized layer has a
digest without the `"sha256:"` prefix returns an error, provided no earlier
recognized layer triggers the short-digest slice panic. -/
theorem getDownloadJobsAux_error_of_bad_digest (registry name destDir : String) :
    ∀ layers : List Layer,
      (∀ l ∈ layers, (mediaTypeToFileTemplate l.MediaType).isSome = true →
        "sha256:".data.isPrefixOf l.Digest.data = true → 19 ≤ l.Digest.length) →
      (∃ l ∈ layers, (mediaTypeToFileTemplate l.MediaType).isSome = true ∧
        "sha256:".data.isPrefixOf l.Digest.data = false) →
      ∃ e, getDownloadJobsAux registry name destDir layers = some (.error e) := by
  intro layers
  induction layers with
  | nil => intro _ hex; simp at hex
  | cons layer rest ih =>
    intro hall hex
    cases hmt : mediaTypeToFileTemplate layer.MediaType with
    | none =>
      obtain ⟨e, he⟩ := ih (fun l hl => hall l (List.mem_cons_of_mem _ hl))
        (by
          obtain ⟨l, hl, hsel, hbad⟩ := hex
          rcases List.mem_cons.mp hl with h1 | h1
          · subst h1; rw [hmt] at hsel; simp at hsel
          · exact ⟨l, h1, hsel, hbad⟩)
      exact ⟨e, by simp [getDownloadJobsAux, hmt, he]⟩
    | some tmpl =>
      cases hpre : "sha256:".data.isPrefixOf layer.Digest.data with
      | false =>
        exact ⟨"unexpected digest: " ++ layer.Digest,
          by simp [getDownloadJobsAux, getShortHash, hmt, hpre]⟩
      | true =>
        have hlen : 19 ≤ layer.Digest.length :=
          hall layer (List.mem_cons_self _ _) (by rw [hmt]; rfl) hpre
        obtain ⟨e, he⟩ := ih (fun l hl => hall l (List.mem_cons_of_mem _ hl))
          (by
            obtain ⟨l, hl, hsel, hbad⟩ := hex
            rcases List.mem_cons.mp hl with h1 | h1
            · subst h1; rw [hpre] at hbad; simp at hbad
            · exact ⟨l, h1, hsel, hbad⟩)
        exact ⟨e,
          by simp [getDownloadJobsAux, getShortHash, hmt, hpre, Nat.not_lt.mpr hlen, he]⟩

/-- The manifest of the C7 counterexample: well-formed except that its only
layer's digest has a non-hexadecimal "hex" part. -/
def manifestBadHex : Manifest :=
  ⟨"application/vnd.docker.distribution.manifest.v2+json", [layerBadHex]⟩

/-- A manifest fetch that succeeds with status 200 and decodes to
`manifestBadHex`. -/
def envManifestBadHex : ManifestEnv := ⟨none, 200, .ok manifestBadHex⟩

/-- Claim C7 counterexample: a selected layer whose digest is NOT of the
`algorithm:hex` shape (its "hex" part is `ZZZZZZZZZZZZZZZZ`) does not make
`getDownloadJobs` return an error: resolution succeeds and even produces a
job for that layer, because only the `"sha256:"` prefix is ever checked. -/
theorem c7_counterexample :
    getDownloadJobs envManifestBadHex "https://r" "d" "library/m" "latest" =
      some (.ok [⟨layerBadHex, "d/params-ZZZZZZZZZZZZ.json",
        "https://r/v2/library/m/blobs/sha256:ZZZZZZZZZZZZZZZZ", 96⟩]) := by
  decide

/-- Claim C7 (amended): each resolution error — the manifest request failing,
a non-200 manifest status, a body that fails to decode, an unrecognized
manifest media type, or (absent an earlier recognized layer whose short
digest crashes the slice) a recognized layer whose digest does not start
with `"sha256:"` — makes `getDownloadJobs` return an error, and on any
resolution error `main` aborts before dispatching any download job. -/
theorem c7_amended_resolution_errors_abort :
    (∀ (env : ManifestEnv) (r d n v e : String), env.getErr = some e →
      getDownloadJobs env r d n v = some (.error e)) ∧
    (∀ (env : ManifestEnv) (r d n v : String), env.getErr = none →
      env.StatusCode ≠ 200 →
      getDownloadJobs env r d n v =
        some (.error ("failed to get manifest: " ++ toString env.StatusCode))) ∧
    (∀ (env : ManifestEnv) (r d n v e : String), env.getErr = none →
      env.StatusCode = 200 → env.decode = .error e →
      getDownloadJobs env r d n v = some (.error e)) ∧
    (∀ (env : ManifestEnv) (r d n v : String) (m : Manifest), env.getErr = none →
      env.StatusCode = 200 → env.decode = .ok m →
      m.MediaType ≠ "application/vnd.docker.distribution.manifest.v2+json" →
      getDownloadJobs env r d n v =
        some (.error ("unexpected media type for manifest: " ++ m.MediaType))) ∧
    (∀ (registry name destDir : String) (layers : List Layer),
      (∀ l ∈ layers, (mediaTypeToFileTemplate l.MediaType).isSome = true →
        "sha256:".data.isPrefixOf l.Digest.data = true → 19 ≤ l.Digest.length) →
      (∃ l ∈ layers, (mediaTypeToFileTemplate l.MediaType).isSome = true ∧
        "sha256:".data.isPrefixOf l.Digest.data = false) →
      ∃ e, getDownloadJobsAux registry name destDir layers = some (.error e)) ∧
    (∀ (env : ManifestEnv) (r d n v e : String) (fss : Nat → FS)
        (envs : Nat → Nat → AttemptEnv),
      getDownloadJobs env r d n v = some (.error e) →
      mainRun env r d n v fss envs = .abort e) := by
  refine ⟨?_, ?_, ?_, ?_, ?_, ?_⟩
  · rintro ⟨g, s, dec⟩ r d n v e h
    cases h
    rfl
  · rintro ⟨g, s, dec⟩ r d n v hg hs
    cases hg
    simp [getDownloadJobs, hs]
  · rintro ⟨g, s, dec⟩ r d n v e hg hs hd
    cases hg
    cases hs
    cases hd
    simp [getDownloadJobs]
  · rintro ⟨g, s, dec⟩ r d n v m hg hs hd hm
    cases hg
    cases hs
    cases hd
    simp [getDownloadJobs, hm]
  · exact fun registry name destDir layers h1 h2 =>
      getDownloadJobsAux_error_of_bad_digest registry name destDir layers h1 h2
  · intro env r d n v e fss envs h
    simp [mainRun, h]

/-- Claim C7 witness: a manifest endpoint answering with status 500 yields
the resolution error `failed to get manifest: 500`, and the run aborts with
that message before dispatching anything. -/
theorem c7_witness :
    getDownloadJobs ⟨none, 500, .ok ⟨"", []⟩⟩ "r" "d" "n" "v" =
      some (.error "failed to get manifest: 500") ∧
    mainRun ⟨none, 500, .ok ⟨"", []⟩⟩ "r" "d" "n" "v"
      (fun _ => ⟨none, none⟩)
      (fun _ _ => ⟨none, none, none, none, 200, .ok [], none⟩) =
      .abort "failed to get manifest: 500" := by
  have h1 := c7_amended_resolution_errors_abort.2.1 ⟨none, 500, .ok ⟨"", []⟩⟩
    "r" "d" "n" "v" rfl (by decide)
  have h2 : getDownloadJobs ⟨none, 500, .ok ⟨"", []⟩⟩ "r" "d" "n" "v" =
      some (.error "failed to get manifest: 500") := h1.trans (by decide)
  exact ⟨h2, c7_amended_resolution_errors_abort.2.2.2.2.2 ⟨none, 500, .ok ⟨"", []⟩⟩
    "r" "d" "n" "v" "failed to get manifest: 500" _ _ h2⟩

/-! ### Step lemmas for the transfer unit -/

/-- The empty file system: neither the staging nor the destination file
exists yet. -/
def fs0 : FS := ⟨none, none⟩

/-- A file system holding a two-byte partial staging file. -/
def fsPartial : FS := ⟨some [7, 7], none⟩

/-- The job of the specification's scenario. -/
def job0 : DownloadJob :=
  ⟨layerParamsA, "library-m-latest/params-aaaaaaaaaaaa.json",
   "https://registry.ollama.ai/v2/library/m/blobs/" ++ digestA, 96⟩

/-- A job whose expected size is 4 bytes. -/
def jobSmall : DownloadJob := ⟨layerParamsA, "d/p.json", "u", 4⟩

/-- An attempt whose request is answered with status 500. -/
def env500 : AttemptEnv := ⟨none, none, none, none, 500, .ok [], none⟩

/-- An attempt that streams the five bytes `[1, 2, 3, 4, 5]` and ends
cleanly, with status 200 and a successful rename. -/
def envOk5 : AttemptEnv := ⟨none, none, none, none, 200, .ok [1, 2, 3, 4, 5], none⟩

/-- An attempt whose body copy fails after delivering the single byte 9. -/
def envCopyFail : AttemptEnv := ⟨none, none, none, none, 200, .errAfter [9], none⟩

/-- An attempt environment in which the request succeeds with an acceptable
status but the body copy fails mid-stream. -/
def retryEnv (env : AttemptEnv) : Prop :=
  env.mkdirErr = none ∧ env.openErr = none ∧ env.reqErr = none ∧ env.doErr = none ∧
  (env.StatusCode = 200 ∨ env.StatusCode = 206) ∧ ∃ bytes, env.copy = .errAfter bytes

/-- A connection-level error or an unacceptable status makes the attempt
fatal, with the staging file untouched (beyond creation), the destination
untouched, and exactly the one request issued. -/
theorem attemptStep_fatal_of_do_or_status (job : DownloadJob) (env : AttemptEnv) (fs : FS)
    (h1 : env.mkdirErr = none) (h2 : env.openErr = none) (h3 : env.reqErr = none)
    (h4 : env.doErr ≠ none ∨ (env.StatusCode ≠ 200 ∧ env.StatusCode ≠ 206)) :
    ∃ e, attemptStep job env fs =
      ⟨.fatal e, ⟨some (fs.staging.getD []), fs.dest⟩,
       [⟨job.BlobURL, if fs.stagingLen > 0 then some fs.stagingLen else none⟩], []⟩ := by
  obtain ⟨mk, op, rq, doE, st, cp, rn⟩ := env
  cases h1
  cases h2
  cases h3
  cases doE with
  | some e => exact ⟨e, by simp [attemptStep, FS.stagingLen]⟩
  | none =>
    rcases h4 with h4 | h4
    · exact absurd rfl h4
    · exact ⟨"unexpected status code: " ++ toString st,
        by simp [attemptStep, FS.stagingLen, h4]⟩

/-- A clean stream with an acceptable status and a successful rename makes
the attempt `done`: the staging file disappears and the destination holds
the previous staging content followed by the streamed bytes. -/
theorem attemptStep_done_of_ok (job : DownloadJob) (env : AttemptEnv) (fs : FS)
    (bytes : List Nat)
    (h1 : env.mkdirErr = none) (h2 : env.openErr = none) (h3 : env.reqErr = none)
    (h4 : env.doErr = none) (h5 : env.StatusCode = 200 ∨ env.StatusCode = 206)
    (h6 : env.copy = .ok bytes) (h7 : env.renameErr = none) :
    attemptStep job env fs =
      ⟨.done, ⟨none, some ((fs.staging.getD []) ++ bytes)⟩,
       [⟨job.BlobURL, if fs.stagingLen > 0 then some fs.stagingLen else none⟩],
       [(job.Size, fs.stagingLen)]⟩ := by
  obtain ⟨mk, op, rq, doE, st, cp, rn⟩ := env
  cases h1
  cases h2
  cases h3
  cases h4
  cases h6
  cases h7
  rcases h5 with h5 | h5 <;> cases h5 <;> simp [attemptStep, FS.stagingLen]

/-- A mid-stream copy failure makes the attempt a `retry`: no rename, the
destination untouched, the staging file keeping every byte written so far. -/
theorem attemptStep_retry_of_copy_error (job : DownloadJob) (env : AttemptEnv) (fs : FS)
    (bytes : List Nat)
    (h1 : env.mkdirErr = none) (h2 : env.openErr = none) (h3 : env.reqErr = none)
    (h4 : env.doErr = none) (h5 : env.StatusCode = 200 ∨ env.StatusCode = 206)
    (h6 : env.copy = .errAfter bytes) :
    attemptStep job env fs =
      ⟨.retry, ⟨some ((fs.staging.getD []) ++ bytes), fs.dest⟩,
       [⟨job.BlobURL, if fs.stagingLen > 0 then some fs.stagingLen else none⟩],
       [(job.Size, fs.stagingLen)]⟩ := by
  obtain ⟨mk, op, rq, doE, st, cp, rn⟩ := env
  cases h1
  cases h2
  cases h3
  cases h4
  cases h6
  rcases h5 with h5 | h5 <;> cases h5 <;> simp [attemptStep, FS.stagingLen]

/-- Every attempt either leaves the destination file untouched or ends
`done` through the rename of a cleanly streamed staging file. -/
theorem attemptStep_dest_or_done (job : DownloadJob) (env : AttemptEnv) (fs : FS) :
    (attemptStep job env fs).fs.dest = fs.dest ∨
    ((attemptStep job env fs).res = .done ∧ env.renameErr = none ∧
     ∃ bytes, env.copy = .ok bytes ∧
       (attemptStep job env fs).fs = ⟨none, some ((fs.staging.getD []) ++ bytes)⟩) := by
  obtain ⟨mk, op, rq, doE, st, cp, rn⟩ := env
  cases mk with
  | some e => exact Or.inl rfl
  | none =>
  cases op with
  | some e => exact Or.inl rfl
  | none =>
  cases rq with
  | some e => exact Or.inl rfl
  | none =>
  cases doE with
  | some e => exact Or.inl rfl
  | none =>
  by_cases hst : st ≠ 200 ∧ st ≠ 206
  · exact Or.inl (by simp [attemptStep, hst])
  · cases cp with
    | errAfter bytes => exact Or.inl (by simp [attemptStep, hst])
    | ok bytes =>
      cases rn with
      | some e => exact Or.inl (by simp [attemptStep, hst])
      | none =>
        refine Or.inr ⟨by simp [attemptStep, hst], rfl, bytes, rfl, by simp [attemptStep, hst]⟩

/-- The size field of the job influences only the progress events of an
attempt, never its result, file-system effect, or issued requests. -/
theorem attemptStep_core_ignores_size (job : DownloadJob) (s : Int) (env : AttemptEnv)
    (fs : FS) :
    (attemptStep (job.withSize s) env fs).res = (attemptStep job env fs).res ∧
    (attemptStep (job.withSize s) env fs).fs = (attemptStep job env fs).fs ∧
    (attemptStep (job.withSize s) env fs).calls = (attemptStep job env fs).calls := by
  obtain ⟨mk, op, rq, doE, st, cp, rn⟩ := env
  cases mk with
  | some e => exact ⟨rfl, rfl, rfl⟩
  | none =>
  cases op with
  | some e => exact ⟨rfl, rfl, rfl⟩
  | none =>
  cases rq with
  | some e => exact ⟨rfl, rfl, rfl⟩
  | none =>
  cases doE with
  | some e => exact ⟨rfl, rfl, rfl⟩
  | none =>
  by_cases hst : st ≠ 200 ∧ st ≠ 206
  · refine ⟨?_, ?_, ?_⟩ <;> simp [attemptStep, DownloadJob.withSize, hst]
  · cases cp with
    | errAfter bytes => refine ⟨?_, ?_, ?_⟩ <;> simp [attemptStep, DownloadJob.withSize, hst]
    | ok bytes =>
      cases rn with
      | some e => refine ⟨?_, ?_, ?_⟩ <;> simp [attemptStep, DownloadJob.withSize, hst]
      | none => refine ⟨?_, ?_, ?_⟩ <;> simp [attemptStep, DownloadJob.withSize, hst]

/-- Every request an attempt issues targets the job's blob URL. -/
theorem attemptStep_calls_url (job : DownloadJob) (env : AttemptEnv) (fs : FS) :
    ∀ r ∈ (attemptStep job env fs).calls, r.url = job.BlobURL := by
  obtain ⟨mk, op, rq, doE, st, cp, rn⟩ := env
  cases mk with
  | some e => intro r hr; simp [attemptStep] at hr
  | none =>
  cases op with
  | some e => intro r hr; simp [attemptStep] at hr
  | none =>
  cases rq with
  | some e => intro r hr; simp [attemptStep] at hr
  | none =>
  cases doE with
  | some e => intro r hr; simp [attemptStep] at hr; subst hr; rfl
  | none =>
  by_cases hst : st ≠ 200 ∧ st ≠ 206
  · intro r hr; simp [attemptStep, hst] at hr; subst hr; rfl
  · cases cp with
    | errAfter bytes => intro r hr; simp [attemptStep, hst] at hr; subst hr; rfl
    | ok bytes =>
      cases rn with
      | some e => intro r hr; simp [attemptStep, hst] at hr; subst hr; rfl
      | none => intro r hr; simp [attemptStep, hst] at hr; subst hr; rfl

/-! ### Loop lemmas for the transfer unit -/

/-- Unfolding one fatal iteration of the retry loop. -/
theorem downloadBlobAux_succ_fatal (job : DownloadJob) (env : Nat → AttemptEnv)
    (fuel attempt : Nat) (fs : FS) (calls : List BlobRequest) (prog : List (Int × Nat))
    (e : String) (h : (attemptStep job (env attempt) fs).res = .fatal e) :
    downloadBlobAux job env (fuel + 1) attempt fs calls prog =
      ⟨.error e, (attemptStep job (env attempt) fs).fs,
       calls ++ (attemptStep job (env attempt) fs).calls,
       prog ++ (attemptStep job (env attempt) fs).progress⟩ := by
  simp only [downloadBlobAux, h]

/-- Unfolding one successful iteration of the retry loop. -/
theorem downloadBlobAux_succ_done (job : DownloadJob) (env : Nat → AttemptEnv)
    (fuel attempt : Nat) (fs : FS) (calls : List BlobRequest) (prog : List (Int × Nat))
    (h : (attemptStep job (env attempt) fs).res = .done) :
    downloadBlobAux job env (fuel + 1) attempt fs calls prog =
      ⟨.ok (), (attemptStep job (env attempt) fs).fs,
       calls ++ (attemptStep job (env attempt) fs).calls,
       prog ++ (attemptStep job (env attempt) fs).progress⟩ := by
  simp only [downloadBlobAux, h]

/-- Unfolding one retried iteration of the retry loop. -/
theorem downloadBlobAux_succ_retry (job : DownloadJob) (env : Nat → AttemptEnv)
    (fuel attempt : Nat) (fs : FS) (calls : List BlobRequest) (prog : List (Int × Nat))
    (h : (attemptStep job (env attempt) fs).res = .retry) :
    downloadBlobAux job env (fuel + 1) attempt fs calls prog =
      downloadBlobAux job env fuel (attempt + 1) (attemptStep job (env attempt) fs).fs
        (calls ++ (attemptStep job (env attempt) fs).calls)
        (prog ++ (attemptStep job (env attempt) fs).progress) := by
  simp only [downloadBlobAux, h]

/-- The destination file is untouched by the whole loop unless the loop
returns success. -/
theorem downloadBlobAux_dest_or_ok (job : DownloadJob) (env : Nat → AttemptEnv) :
    ∀ (fuel attempt : Nat) (fs : FS) (calls : List BlobRequest) (prog : List (Int × Nat)),
      (downloadBlobAux job env fuel attempt fs calls prog).fs.dest = fs.dest ∨
      (downloadBlobAux job env fuel attempt fs calls prog).res = .ok () := by
  intro fuel
  induction fuel with
  | zero => intros; exact Or.inl rfl
  | succ n ih =>
    intro attempt fs calls prog
    have hstep := attemptStep_dest_or_done job (env attempt) fs
    rcases hres : (attemptStep job (env attempt) fs).res with e | _ | _
    · rw [downloadBlobAux_succ_fatal job env n attempt fs calls prog e hres]
      left
      rcases hstep with h | h
      · exact h
      · rw [hres] at h; exact absurd h.1 (by simp)
    · rw [downloadBlobAux_succ_retry job env n attempt fs calls prog hres]
      have hdest : (attemptStep job (env attempt) fs).fs.dest = fs.dest := by
        rcases hstep with h | h
        · exact h
        · rw [hres] at h; exact absurd h.1 (by simp)
      rcases ih (attempt + 1) (attemptStep job (env attempt) fs).fs
          (calls ++ (attemptStep job (env attempt) fs).calls)
          (prog ++ (attemptStep job (env attempt) fs).progress) with h | h
      · exact Or.inl (h.trans hdest)
      · exact Or.inr h
    · rw [downloadBlobAux_succ_done job env n attempt fs calls prog hres]
      exact Or.inr rfl

/-- When every remaining attempt's environment fails its copy mid-stream,
the loop exhausts its fuel and reports that the maximum retries were
reached. -/
theorem downloadBlobAux_max_retries (job : DownloadJob) (env : Nat → AttemptEnv) :
    ∀ (fuel attempt : Nat) (fs : FS) (calls : List BlobRequest) (prog : List (Int × Nat)),
      (∀ a, attempt ≤ a → a < attempt + fuel → retryEnv (env a)) →
      (downloadBlobAux job env fuel attempt fs calls prog).res =
        .error "maximum retries reached" := by
  intro fuel
  induction fuel with
  | zero => intros; rfl
  | succ n ih =>
    intro attempt fs calls prog hall
    obtain ⟨h1, h2, h3, h4, h5, bytes, h6⟩ := hall attempt le_rfl (by omega)
    have hstep := attemptStep_retry_of_copy_error job (env attempt) fs bytes h1 h2 h3 h4 h5 h6
    have hres : (attemptStep job (env attempt) fs).res = .retry := by rw [hstep]
    rw [downloadBlobAux_succ_retry job env n attempt fs calls prog hres]
    exact ih (attempt + 1) _ _ _ (fun a ha1 ha2 => hall a (by omega) (by omega))

/-- The size field of the job influences only the progress events of the
whole loop. -/
theorem downloadBlobAux_core_ignores_size (job : DownloadJob) (s : Int)
    (env : Nat → AttemptEnv) :
    ∀ (fuel attempt : Nat) (fs : FS) (calls : List BlobRequest)
      (prog prog2 : List (Int × Nat)),
      (downloadBlobAux (job.withSize s) env fuel attempt fs calls prog).core =
        (downloadBlobAux job env fuel attempt fs calls prog2).core := by
  intro fuel
  induction fuel with
  | zero => intros; rfl
  | succ n ih =>
    intro attempt fs calls prog prog2
    obtain ⟨hres, hfs, hcalls⟩ := attemptStep_core_ignores_size job s (env attempt) fs
    rcases hr : (attemptStep job (env attempt) fs).res with e | _ | _
    · rw [downloadBlobAux_succ_fatal (job.withSize s) env n attempt fs calls prog e
        (hres.trans hr),
        downloadBlobAux_succ_fatal job env n attempt fs calls prog2 e hr]
      simp [DlOut.core, hfs, hcalls]
    · rw [downloadBlobAux_succ_retry (job.withSize s) env n attempt fs calls prog
        (hres.trans hr),
        downloadBlobAux_succ_retry job env n attempt fs calls prog2 hr,
        hfs, hcalls]
      exact ih (attempt + 1) _ _ _ _
    · rw [downloadBlobAux_succ_done (job.withSize s) env n attempt fs calls prog
        (hres.trans hr),
        downloadBlobAux_succ_done job env n attempt fs calls prog2 hr]
      simp [DlOut.core, hfs, hcalls]

/-- Every request the whole loop issues targets the job's blob URL. -/
theorem downloadBlobAux_calls_url (job : DownloadJob) (env : Nat → AttemptEnv) :
    ∀ (fuel attempt : Nat) (fs : FS) (calls : List BlobRequest) (prog : List (Int × Nat)),
      (∀ r ∈ calls, r.url = job.BlobURL) →
      ∀ r ∈ (downloadBlobAux job env fuel attempt fs calls prog).calls,
        r.url = job.BlobURL := by
  intro fuel
  induction fuel with
  | zero => intro attempt fs calls prog hacc r hr; exact hacc r hr
  | succ n ih =>
    intro attempt fs calls prog hacc
    have hnew : ∀ r ∈ calls ++ (attemptStep job (env attempt) fs).calls,
        r.url = job.BlobURL := by
      intro r hr
      rcases List.mem_append.mp hr with h | h
      · exact hacc r h
      · exact attemptStep_calls_url job (env attempt) fs r h
    rcases hr : (attemptStep job (env attempt) fs).res with e | _ | _
    · rw [downloadBlobAux_succ_fatal job env n attempt fs calls prog e hr]
      exact hnew
    · rw [downloadBlobAux_succ_retry job env n attempt fs calls prog hr]
      exact ih (attempt + 1) _ _ _ hnew
    · rw [downloadBlobAux_succ_done job env n attempt fs calls prog hr]
      exact hnew

/-! ### C1 -/

/-- Claim C1 counterexample: with every attempt answered by status 500,
`downloadBlob` returns the status error after the FIRST attempt, having
issued exactly one request — a non-200/206 status is not counted against
the retry budget and the transfer is not retried. -/
theorem c1_counterexample :
    downloadBlob job0 (fun _ => env500) fs0 =
      ⟨.error "unexpected status code: 500", ⟨some [], none⟩,
       [⟨job0.BlobURL, none⟩], []⟩ := by
  decide

/-- Claim C1 (amended): a connection-level error of the transfer request,
and likewise a response status that is neither 200 nor 206, aborts the whole
job immediately: `downloadBlob` returns that attempt's error having issued
only that attempt's single request, leaving the rest of the 10-attempt
budget unused; only mid-stream copy failures are retried. -/
theorem c1_amended_status_or_connection_error_aborts
    (job : DownloadJob) (env : Nat → AttemptEnv) (fs : FS)
    (h1 : (env 1).mkdirErr = none) (h2 : (env 1).openErr = none)
    (h3 : (env 1).reqErr = none)
    (h4 : (env 1).doErr ≠ none ∨
      ((env 1).StatusCode ≠ 200 ∧ (env 1).StatusCode ≠ 206)) :
    ∃ e, (downloadBlob job env fs).res = .error e ∧
      (downloadBlob job env fs).calls =
        [⟨job.BlobURL, if fs.stagingLen > 0 then some fs.stagingLen else none⟩] := by
  obtain ⟨e, he⟩ := attemptStep_fatal_of_do_or_status job (env 1) fs h1 h2 h3 h4
  have hres : (attemptStep job (env 1) fs).res = .fatal e := by rw [he]
  have hd : downloadBlob job env fs = downloadBlobAux job env (9 + 1) 1 fs [] [] := rfl
  refine ⟨e, ?_, ?_⟩ <;>
    rw [hd, downloadBlobAux_succ_fatal job env 9 1 fs [] [] e hres] <;>
    simp [he]

/-- Claim C1 witness: concrete instance of the amended claim at the empty
file system and an all-500 environment. -/
theorem c1_witness :
    ∃ e, (downloadBlob job0 (fun _ => env500) fs0).res = .error e ∧
      (downloadBlob job0 (fun _ => env500) fs0).calls = [⟨job0.BlobURL, none⟩] := by
  obtain ⟨e, h, hc⟩ := c1_amended_status_or_connection_error_aborts job0
    (fun _ => env500) fs0 rfl rfl rfl (Or.inr ⟨by decide, by decide⟩)
  exact ⟨e, h, hc.trans (by decide)⟩

/-! ### C2 -/

/-- Claim C2 counterexample: a body longer than the descriptor's expected
size is accepted silently: with expected size 4 and a clean 5-byte stream,
the staging file grows to 5 bytes, is renamed, and the transfer completes
successfully instead of being classified a failure. -/
theorem c2_counterexample :
    downloadBlob jobSmall (fun _ => envOk5) fs0 =
      ⟨.ok (), ⟨none, some [1, 2, 3, 4, 5]⟩, [⟨"u", none⟩], [(4, 0)]⟩ := by
  decide

/-- Claim C2 (amended): the transfer never compares the staging file's
length to the descriptor's expected size: a clean stream of any length is
appended in full and committed successfully, and the size field influences
nothing but the progress-bar events. -/
theorem c2_amended_no_size_bound
    (job : DownloadJob) (env : Nat → AttemptEnv) (fs : FS) (bytes : List Nat)
    (h1 : (env 1).mkdirErr = none) (h2 : (env 1).openErr = none)
    (h3 : (env 1).reqErr = none) (h4 : (env 1).doErr = none)
    (h5 : (env 1).StatusCode = 200 ∨ (env 1).StatusCode = 206)
    (h6 : (env 1).copy = .ok bytes) (h7 : (env 1).renameErr = none) :
    (downloadBlob job env fs).res = .ok () ∧
    (downloadBlob job env fs).fs = ⟨none, some ((fs.staging.getD []) ++ bytes)⟩ ∧
    (∀ s : Int, (downloadBlob (job.withSize s) env fs).core =
      (downloadBlob job env fs).core) := by
  have hstep := attemptStep_done_of_ok job (env 1) fs bytes h1 h2 h3 h4 h5 h6 h7
  have hres : (attemptStep job (env 1) fs).res = .done := by rw [hstep]
  have hd : downloadBlob job env fs = downloadBlobAux job env (9 + 1) 1 fs [] [] := rfl
  refine ⟨?_, ?_, ?_⟩
  · rw [hd, downloadBlobAux_succ_done job env 9 1 fs [] [] hres]
  · rw [hd, downloadBlobAux_succ_done job env 9 1 fs [] [] hres]
    simp [hstep]
  · intro s
    exact downloadBlobAux_core_ignores_size job s env numRetries 1 fs [] [] []

/-- Claim C2 witness: concrete instance of the amended claim: the 5-byte
stream into the size-4 job commits all 5 bytes, and replacing the size by
96 changes nothing but the progress events. -/
theorem c2_witness :
    (downloadBlob jobSmall (fun _ => envOk5) fs0).res = .ok () ∧
    (downloadBlob jobSmall (fun _ => envOk5) fs0).fs = ⟨none, some [1, 2, 3, 4, 5]⟩ ∧
    (downloadBlob (jobSmall.withSize 96) (fun _ => envOk5) fs0).core =
      (downloadBlob jobSmall (fun _ => envOk5) fs0).core := by
  have h := c2_amended_no_size_bound jobSmall (fun _ => envOk5) fs0 [1, 2, 3, 4, 5]
    rfl rfl rfl rfl (Or.inl rfl) rfl rfl
  exact ⟨h.1, h.2.1.trans (by decide), h.2.2 96⟩

/-! ### C3 -/

/-- Claim C3: a mid-stream copy failure performs no rename (the destination
is untouched), keeps every byte written so far in the staging file, and
sends the loop to the next attempt; and when all attempts 1..10 fail their
copy, `downloadBlob` returns the error stating that the maximum retries
were reached. -/
theorem c3_copy_failure_retries_until_exhaustion :
    (∀ (job : DownloadJob) (env : AttemptEnv) (fs : FS) (bytes : List Nat),
      env.mkdirErr = none → env.openErr = none → env.reqErr = none →
      env.doErr = none → (env.StatusCode = 200 ∨ env.StatusCode = 206) →
      env.copy = .errAfter bytes →
      (attemptStep job env fs).res = .retry ∧
      (attemptStep job env fs).fs.dest = fs.dest ∧
      (attemptStep job env fs).fs.staging = some ((fs.staging.getD []) ++ bytes)) ∧
    (∀ (job : DownloadJob) (env : Nat → AttemptEnv) (fs : FS),
      (∀ a, 1 ≤ a → a ≤ numRetries → retryEnv (env a)) →
      (downloadBlob job env fs).res = .error "maximum retries reached") := by
  constructor
  · intro job env fs bytes h1 h2 h3 h4 h5 h6
    have hstep := attemptStep_retry_of_copy_error job env fs bytes h1 h2 h3 h4 h5 h6
    refine ⟨?_, ?_, ?_⟩ <;> simp [hstep]
  · intro job env fs hall
    have hd : downloadBlob job env fs = downloadBlobAux job env numRetries 1 fs [] [] := rfl
    rw [hd]
    exact downloadBlobAux_max_retries job env numRetries 1 fs [] []
      (fun a ha1 ha2 => hall a ha1 (by omega))

/-- Claim C3 witness: concrete instance: one failing copy keeps its byte and
retries; ten failing copies exhaust the budget with the max-retries error. -/
theorem c3_witness :
    ((attemptStep job0 envCopyFail fs0).res = .retry ∧
     (attemptStep job0 envCopyFail fs0).fs.dest = fs0.dest ∧
     (attemptStep job0 envCopyFail fs0).fs.staging = some [9]) ∧
    (downloadBlob job0 (fun _ => envCopyFail) fs0).res =
      .error "maximum retries reached" := by
  refine ⟨?_, ?_⟩
  · have h := c3_copy_failure_retries_until_exhaustion.1 job0 envCopyFail fs0 [9]
      rfl rfl rfl rfl (Or.inl rfl) rfl
    exact ⟨h.1, h.2.1, h.2.2.trans (by decide)⟩
  · exact c3_copy_failure_retries_until_exhaustion.2 job0 (fun _ => envCopyFail) fs0
      (fun a _ _ => ⟨rfl, rfl, rfl, rfl, Or.inl rfl, [9], rfl⟩)

/-! ### C4 -/

/-- Claim C4: the destination path is written only through the rename of the
fully streamed staging file: a single attempt either leaves the destination
untouched or ends `done` with the destination holding exactly the staging
content plus the cleanly streamed bytes (and the staging file gone); and a
whole `downloadBlob` call that does not return success leaves the
destination exactly as it was. -/
theorem c4_destination_only_via_rename
    (job : DownloadJob) (env : AttemptEnv) (envf : Nat → AttemptEnv) (fs : FS) :
    ((attemptStep job env fs).fs.dest = fs.dest ∨
      ((attemptStep job env fs).res = .done ∧ env.renameErr = none ∧
       ∃ bytes, env.copy = .ok bytes ∧
         (attemptStep job env fs).fs = ⟨none, some ((fs.staging.getD []) ++ bytes)⟩)) ∧
    ((downloadBlob job envf fs).fs.dest = fs.dest ∨
      (downloadBlob job envf fs).res = .ok ()) := by
  exact ⟨attemptStep_dest_or_done job env fs,
    downloadBlobAux_dest_or_ok job envf numRetries 1 fs [] []⟩

/-! ### C5 -/

/-- Claim C5: whenever an attempt reaches the fetch, the issued request
targets the job's blob URL and carries a range lower bound equal to the
staging file's current length exactly when that length is positive (no
range header on an empty or absent staging file); and every request a whole
`downloadBlob` call issues targets the job's blob URL. -/
theorem c5_resume_offset_and_range_header
    (job : DownloadJob) (env : AttemptEnv) (envf : Nat → AttemptEnv) (fs : FS)
    (h1 : env.mkdirErr = none) (h2 : env.openErr = none) (h3 : env.reqErr = none) :
    (attemptStep job env fs).calls =
      [⟨job.BlobURL, if fs.stagingLen > 0 then some fs.stagingLen else none⟩] ∧
    (∀ r ∈ (downloadBlob job envf fs).calls, r.url = job.BlobURL) := by
  constructor
  · obtain ⟨mk, op, rq, doE, st, cp, rn⟩ := env
    cases h1
    cases h2
    cases h3
    cases doE with
    | some e => simp [attemptStep, FS.stagingLen]
    | none =>
      by_cases hst : st ≠ 200 ∧ st ≠ 206
      · simp [attemptStep, FS.stagingLen, hst]
      · cases cp with
        | errAfter bytes => simp [attemptStep, FS.stagingLen, hst]
        | ok bytes =>
          cases rn with
          | some e => simp [attemptStep, FS.stagingLen, hst]
          | none => simp [attemptStep, FS.stagingLen, hst]
  · exact downloadBlobAux_calls_url job envf numRetries 1 fs [] [] (by simp)

/-- Claim C5 witness: on a two-byte partial staging file the request carries
the range lower bound 2; all requests of the run target the blob URL. -/
theorem c5_witness :
    (attemptStep job0 envOk5 fsPartial).calls = [⟨job0.BlobURL, some 2⟩] ∧
    (∀ r ∈ (downloadBlob job0 (fun _ => envOk5) fsPartial).calls,
      r.url = job0.BlobURL) := by
  have h := c5_resume_offset_and_range_header job0 envOk5 (fun _ => envOk5) fsPartial
    rfl rfl rfl
  exact ⟨h.1.trans (by decide), h.2⟩

/-! ### Orchestrator lemmas -/

/-- The entry of the dispatch loop at index `i`, counting from start index
`k`: it depends only on the job at `i` and the slice `k + i` of the per-job
environments. -/
theorem orchestrateAux_getElem (fss : Nat → FS) (envs : Nat → Nat → AttemptEnv) :
    ∀ (jobs : List DownloadJob) (k i : Nat),
      (orchestrateAux fss envs k jobs)[i]? =
        (jobs[i]?).map (fun job =>
          if (fss (k + i)).dest.isSome then .skipped
          else .ran (downloadBlob job (envs (k + i)) (fss (k + i)))) := by
  intro jobs
  induction jobs with
  | nil => intro k i; simp [orchestrateAux]
  | cons job rest ih =>
    intro k i
    cases i with
    | zero => simp [orchestrateAux]
    | succ j =>
      have harith : k + 1 + j = k + (j + 1) := by omega
      simp only [orchestrateAux, List.getElem?_cons_succ]
      rw [ih (k + 1) j, harith]

/-- The dispatch loop produces one report per job. -/
theorem orchestrateAux_length (fss : Nat → FS) (envs : Nat → Nat → AttemptEnv) :
    ∀ (jobs : List DownloadJob) (k : Nat),
      (orchestrateAux fss envs k jobs).length = jobs.length := by
  intro jobs
  induction jobs with
  | nil => intro k; rfl
  | cons job rest ih => intro k; simp [orchestrateAux, ih (k + 1)]

/-! ### C6 -/

/-- Claim C6: a job whose destination path already exists (whatever its
content) is reported Skipped by the dispatch loop: no transfer unit is
started for it and it issues no request. -/
theorem c6_existing_destination_is_skipped
    (jobs : List DownloadJob) (fss : Nat → FS) (envs : Nat → Nat → AttemptEnv)
    (i : Nat) (job : DownloadJob)
    (hj : jobs[i]? = some job) (hex : (fss i).dest.isSome = true) :
    (orchestrate jobs fss envs)[i]? = some .skipped ∧
    reportCalls .skipped = [] := by
  constructor
  · rw [orchestrate, orchestrateAux_getElem fss envs jobs 0 i, hj]
    simp [Nat.zero_add, hex]
  · rfl

/-- Claim C6 witness: a single job whose destination already exists as an
empty file is reported Skipped with no request issued. -/
theorem c6_witness :
    (orchestrate [job0] (fun _ => ⟨none, some []⟩) (fun _ _ => env500))[0]? =
      some .skipped ∧
    reportCalls .skipped = [] := by
  exact c6_existing_destination_is_skipped [job0] (fun _ => ⟨none, some []⟩)
    (fun _ _ => env500) 0 job0 rfl rfl

/-! ### C8 -/

/-- Claim C8: the dispatch loop produces exactly one report per job (the
join barrier collects every dispatched unit's outcome); every job whose
destination is absent is handed to its own `downloadBlob` on its own
environment, and its report is exactly that transfer's outcome; and the
report at an index depends only on that index's own file system and
environments, so one job's failure cannot affect a sibling's report. -/
theorem c8_fanout_join_and_isolation :
    (∀ (jobs : List DownloadJob) (fss : Nat → FS) (envs : Nat → Nat → AttemptEnv),
      (orchestrate jobs fss envs).length = jobs.length) ∧
    (∀ (jobs : List DownloadJob) (fss : Nat → FS) (envs : Nat → Nat → AttemptEnv)
        (i : Nat) (job : DownloadJob),
      jobs[i]? = some job → (fss i).dest.isSome = false →
      (orchestrate jobs fss envs)[i]? =
        some (.ran (downloadBlob job (envs i) (fss i)))) ∧
    (∀ (jobs : List DownloadJob) (fss fss2 : Nat → FS)
        (envs envs2 : Nat → Nat → AttemptEnv) (i : Nat),
      fss i = fss2 i → envs i = envs2 i →
      (orchestrate jobs fss envs)[i]? = (orchestrate jobs fss2 envs2)[i]?) := by
  refine ⟨?_, ?_, ?_⟩
  · intro jobs fss envs
    exact orchestrateAux_length fss envs jobs 0
  · intro jobs fss envs i job hj hex
    rw [orchestrate, orchestrateAux_getElem fss envs jobs 0 i, hj]
    simp [Nat.zero_add, hex]
  · intro jobs fss fss2 envs envs2 i hfs henv
    rw [orchestrate, orchestrate, orchestrateAux_getElem fss envs jobs 0 i,
      orchestrateAux_getElem fss2 envs2 jobs 0 i]
    simp only [Nat.zero_add, hfs, henv]

/-- Claim C8 witness: a two-job list in which job 1's server always answers
500 while job 0 streams cleanly — job 0's report is its own successful
transfer, unaffected by its failing sibling. -/
theorem c8_witness :
    (orchestrate [jobSmall, job0]
        (fun _ => fs0)
        (fun i => if i = 1 then (fun _ => env500) else (fun _ => envOk5)))[0]? =
      some (.ran (downloadBlob jobSmall (fun _ => envOk5) fs0)) := by
  have h := c8_fanout_join_and_isolation.2.1 [jobSmall, job0]
    (fun _ => fs0)
    (fun i => if i = 1 then (fun _ => env500) else (fun _ => envOk5))
    0 jobSmall rfl rfl
  exact h.trans (by decide)

end OllamaDl
